import Mathlib

/-!
# nav2_lifecycle_manager: LifecycleManagerClient

A shallow embedding of `nav2_lifecycle_manager/src/lifecycle_manager_client.cpp`.

The client talks to the ROS 2 middleware (rclcpp), which is an external
collaborator.  It is embedded as an oracle `Rclcpp`: every call into the
middleware returns whatever the oracle answers for that call, and is recorded
in a chronological trace.  The answers are indexed by how many calls of the
same kind happened before, so that an arbitrary (deterministic) environment
can be described.  The client's methods are state-passing functions over a
`State` that holds the client object and the middleware's `World`.

The `while` loop of `callService` has no bound of its own; it is embedded with
a fuel argument that counts evaluations of the loop condition, and a run that
uses up its fuel reports the state in which the loop is about to poll again.
-/

namespace nav2_lifecycle_manager

/-! ## Types of the collaborators -/

/-- The C++ type `uint8_t`. -/
abbrev uint8_t := Fin 256

/-- The tick count of a `std::chrono::nanoseconds`. -/
abbrev nanoseconds := Int

/-- The conversion of `std::chrono::seconds(n)` to nanoseconds. -/
def seconds (n : Int) : nanoseconds := n * 1000000000

/-- The enumeration `rclcpp::FutureReturnCode`. -/
inductive FutureReturnCode
  | SUCCESS
  | INTERRUPTED
  | TIMEOUT
deriving DecidableEq, Repr

/-- The enumeration `SystemStatus` returned by the status query. -/
inductive SystemStatus
  | ACTIVE
  | INACTIVE
  | TIMEOUT
deriving DecidableEq, Repr

/-- A request message: a `ManageLifecycleNodes::Request`, whose only field is
`command`, or a `std_srvs::srv::Trigger::Request`, which has no field. -/
inductive Request
  | ManageLifecycleNodes (command : uint8_t)
  | Trigger
deriving DecidableEq, Repr

/-- The command constants of `ManageLifecycleNodes::Request`.  They come from
generated message code that the client only refers to by name, so the five
values are taken as a parameter. -/
structure ManageLifecycleNodes where
  STARTUP : uint8_t
  SHUTDOWN : uint8_t
  PAUSE : uint8_t
  RESUME : uint8_t
  RESET : uint8_t
deriving DecidableEq, Repr

/-- Severity of a log line (`RCLCPP_INFO`, `RCLCPP_ERROR`). -/
inductive Severity
  | INFO
  | ERROR
deriving DecidableEq, Repr

/-- A pending response, as returned by `async_send_request`: the sequence
number of the request together with where it went and what it was. -/
structure Future where
  id : Nat
  service : String
  request : Request
deriving DecidableEq, Repr

/-- Everything the client does to the middleware, in the order it happens. -/
inductive Event
  | log (severity : Severity) (format : String) (args : List String)
  | make_node (name : String) (namespace_ : String)
  | create_client (service : String)
  | wait_for_service (service : String) (timeout : nanoseconds)
  | ok
  | async_send_request (service : String) (request : Request)
  | spin_until_future_complete (future : Nat) (timeout : nanoseconds)
  | get (future : Nat)
deriving DecidableEq, Repr

/-- The middleware as an oracle.  `wait_for_service k service timeout` is the
answer of the `k`-th call of `wait_for_service` (counted from 0), `ok k` the
answer of the `k`-th call of `rclcpp::ok()`, `spin_until_future_complete f t`
the outcome of waiting up to `t` for the response of `f`, and `success f` the
`success` field of that response.  `node_accepted` and `service_accepted` say
whether creating a node, resp. a service client, of that name succeeds. -/
structure Rclcpp where
  srv : ManageLifecycleNodes
  node_accepted : String → String → Bool
  service_accepted : String → Bool
  wait_for_service : Nat → String → nanoseconds → Bool
  ok : Nat → Bool
  spin_until_future_complete : Future → nanoseconds → FutureReturnCode
  success : Future → Bool

/-- The state of the middleware as far as the client can tell: how many
calls of each kind were made so far, and the trace of all of them. -/
structure World where
  waits : Nat
  oks : Nat
  futures : Nat
  trace : List Event
deriving DecidableEq, Repr

/-- An `rclcpp::Node` handle. -/
structure Node where
  name : String
  namespace_ : String
deriving DecidableEq, Repr

/-- An `rclcpp::Client` handle, bound to a service name. -/
structure Client where
  service_name : String
deriving DecidableEq, Repr

/-- The data members of `LifecycleManagerClient`. -/
structure LifecycleManagerClient where
  manage_service_name_ : String
  active_service_name_ : String
  node_ : Node
  manager_client_ : Client
  is_active_client_ : Client
deriving DecidableEq, Repr

/-- What a method runs on and leaves behind: the object and the world. -/
structure State where
  self : LifecycleManagerClient
  rcl : World
deriving DecidableEq, Repr

/-- What can go wrong while constructing: the middleware refuses the node or
one of the two service clients. -/
inductive ConstructionError
  | invalid_node (name : String) (namespace_ : String)
  | invalid_service (service : String)
deriving DecidableEq, Repr

/-! ## Calls into the middleware -/

/-- Append one event to the trace. -/
def World.emit (w : World) (e : Event) : World :=
  { w with trace := w.trace ++ [e] }

/-- The macros `RCLCPP_INFO` and `RCLCPP_ERROR`. -/
def RCLCPP_LOG (severity : Severity) (format : String) (args : List String) (w : World) : World :=
  w.emit (.log severity format args)

/-- The call `std::make_shared<rclcpp::Node>(name, namespace_)`. -/
def make_node (env : Rclcpp) (name namespace_ : String) (w : World) :
    Except ConstructionError (Node × World) :=
  let w := w.emit (.make_node name namespace_)
  if env.node_accepted name namespace_ then .ok ({ name := name, namespace_ := namespace_ }, w)
  else .error (.invalid_node name namespace_)

/-- The call `node_->create_client<ServiceT>(service_name)`. -/
def create_client (env : Rclcpp) (service_name : String) (w : World) :
    Except ConstructionError (Client × World) :=
  let w := w.emit (.create_client service_name)
  if env.service_accepted service_name then .ok ({ service_name := service_name }, w)
  else .error (.invalid_service service_name)

/-- The call `client->wait_for_service(timeout)`. -/
def wait_for_service (env : Rclcpp) (client : Client) (timeout : nanoseconds) (w : World) :
    Bool × World :=
  (env.wait_for_service w.waits client.service_name timeout,
   { w with waits := w.waits + 1,
            trace := w.trace ++ [.wait_for_service client.service_name timeout] })

/-- The call `rclcpp::ok()`. -/
def ok (env : Rclcpp) (w : World) : Bool × World :=
  (env.ok w.oks, { w with oks := w.oks + 1, trace := w.trace ++ [.ok] })

/-- The call `client->async_send_request(request)`. -/
def async_send_request (client : Client) (request : Request) (w : World) : Future × World :=
  ({ id := w.futures, service := client.service_name, request := request },
   { w with futures := w.futures + 1,
            trace := w.trace ++ [.async_send_request client.service_name request] })

/-- The call `rclcpp::spin_until_future_complete(node_, future, timeout)`. -/
def spin_until_future_complete (env : Rclcpp) (future : Future) (timeout : nanoseconds)
    (w : World) : FutureReturnCode × World :=
  (env.spin_until_future_complete future timeout,
   w.emit (.spin_until_future_complete future.id timeout))

/-- The expression `future.get()->success`. -/
def get_success (env : Rclcpp) (future : Future) (w : World) : Bool × World :=
  (env.success future, w.emit (.get future.id))

/-! ## The client -/

/-- The constructor `LifecycleManagerClient::LifecycleManagerClient`. -/
def LifecycleManagerClient.new (env : Rclcpp) (name : String) (namespace_ : String)
    (w : World) : Except ConstructionError State :=
  let manage_service_name_ := name ++ "/manage_nodes"
  let active_service_name_ := name ++ "/is_active"
  -- Create the node to use for all of the service clients
  match make_node env (name ++ "_service_client") namespace_ w with
  | .error e => .error e
  | .ok (node_, w) =>
    -- Create the service clients
    match create_client env manage_service_name_ w with
    | .error e => .error e
    | .ok (manager_client_, w) =>
      match create_client env active_service_name_ w with
      | .error e => .error e
      | .ok (is_active_client_, w) =>
        .ok { self := { manage_service_name_ := manage_service_name_,
                        active_service_name_ := active_service_name_,
                        node_ := node_,
                        manager_client_ := manager_client_,
                        is_active_client_ := is_active_client_ },
              rcl := w }

/-- How a method that contains the polling loop stands: it has returned a
value, or its fuel ran out while it was still polling. -/
inductive Run (α : Type)
  | returned (value : α) (s : State)
  | polling (s : State)
deriving DecidableEq, Repr

/-- The state a run stands in. -/
def Run.state {α : Type} : Run α → State
  | .returned _ s => s
  | .polling s => s

/-- How the polling loop of `callService` was left. -/
inductive LoopExit
  | appeared
  | interrupted
  | polling
deriving DecidableEq, Repr

/-- The loop `while (!manager_client_->wait_for_service(1s)) { ... }` of
`callService`; `fuel` bounds the number of times its condition is evaluated. -/
def callService.loop (env : Rclcpp) : Nat → State → LoopExit × State
  | 0, s => (.polling, s)
  | fuel + 1, s =>
    let (available, w) := wait_for_service env s.self.manager_client_ (seconds 1) s.rcl
    if !available then
      let (running, w) := ok env w
      if !running then
        let w := RCLCPP_LOG .ERROR "Client interrupted while waiting for service to appear" [] w
        (.interrupted, { s with rcl := w })
      else
        let w := RCLCPP_LOG .INFO "Waiting for service to appear..." [] w
        callService.loop env fuel { s with rcl := w }
    else
      (.appeared, { s with rcl := w })

/-- The method `LifecycleManagerClient::callService`. -/
def callService (env : Rclcpp) (command : uint8_t) (timeout : nanoseconds) (fuel : Nat)
    (s : State) : Run Bool :=
  let request := Request.ManageLifecycleNodes command
  let w := RCLCPP_LOG .INFO "Waiting for the %s service..." [s.self.manage_service_name_] s.rcl
  match callService.loop env fuel { s with rcl := w } with
  | (.polling, s) => .polling s
  | (.interrupted, s) => .returned false s
  | (.appeared, s) =>
    let w := RCLCPP_LOG .INFO "Sending %s request" [s.self.manage_service_name_] s.rcl
    let (future_result, w) := async_send_request s.self.manager_client_ request w
    let (code, w) := spin_until_future_complete env future_result timeout w
    if code ≠ FutureReturnCode.SUCCESS then
      .returned false { s with rcl := w }
    else
      let (success, w) := get_success env future_result w
      .returned success { s with rcl := w }

/-- The method `LifecycleManagerClient::startup`. -/
def startup (env : Rclcpp) (timeout : nanoseconds) (fuel : Nat) (s : State) : Run Bool :=
  callService env env.srv.STARTUP timeout fuel s

/-- The method `LifecycleManagerClient::shutdown`. -/
def shutdown (env : Rclcpp) (timeout : nanoseconds) (fuel : Nat) (s : State) : Run Bool :=
  callService env env.srv.SHUTDOWN timeout fuel s

/-- The method `LifecycleManagerClient::pause`. -/
def pause (env : Rclcpp) (timeout : nanoseconds) (fuel : Nat) (s : State) : Run Bool :=
  callService env env.srv.PAUSE timeout fuel s

/-- The method `LifecycleManagerClient::resume`. -/
def resume (env : Rclcpp) (timeout : nanoseconds) (fuel : Nat) (s : State) : Run Bool :=
  callService env env.srv.RESUME timeout fuel s

/-- The method `LifecycleManagerClient::reset`. -/
def reset (env : Rclcpp) (timeout : nanoseconds) (fuel : Nat) (s : State) : Run Bool :=
  callService env env.srv.RESET timeout fuel s

/-- The method `LifecycleManagerClient::is_active`. -/
def is_active (env : Rclcpp) (timeout : nanoseconds) (s : State) : SystemStatus × State :=
  let request := Request.Trigger
  let w := RCLCPP_LOG .INFO "Waiting for the %s service..." [s.self.active_service_name_] s.rcl
  let (available, w) := wait_for_service env s.self.is_active_client_ timeout w
  if !available then
    (SystemStatus.TIMEOUT, { s with rcl := w })
  else
    let w := RCLCPP_LOG .INFO "Sending %s request" [s.self.active_service_name_] w
    let (future_result, w) := async_send_request s.self.is_active_client_ request w
    let (code, w) := spin_until_future_complete env future_result timeout w
    if code ≠ FutureReturnCode.SUCCESS then
      (SystemStatus.TIMEOUT, { s with rcl := w })
    else
      let (success, w) := get_success env future_result w
      if success then
        (SystemStatus.ACTIVE, { s with rcl := w })
      else
        (SystemStatus.INACTIVE, { s with rcl := w })

/-! ## Observations on a state, and the situations the loop can meet -/

/-- The requests sent so far, each with the service it was sent to, in order. -/
def World.sent (w : World) : List (String × Request) :=
  w.trace.filterMap fun e =>
    match e with
    | .async_send_request service request => some (service, request)
    | _ => none

/-- The availability waits made so far, each with its service and timeout. -/
def World.waited (w : World) : List (String × nanoseconds) :=
  w.trace.filterMap fun e =>
    match e with
    | .wait_for_service service timeout => some (service, timeout)
    | _ => none

/-- Poll number `i` (from 0) of a `callService` started in `s` reports the
command endpoint as not available. -/
def pollFails (env : Rclcpp) (s : State) (i : Nat) : Prop :=
  env.wait_for_service (s.rcl.waits + i) s.self.manager_client_.service_name (seconds 1) = false

/-- Poll number `i` of a `callService` started in `s` finds the endpoint. -/
def pollSucceeds (env : Rclcpp) (s : State) (i : Nat) : Prop :=
  env.wait_for_service (s.rcl.waits + i) s.self.manager_client_.service_name (seconds 1) = true

/-- The check `rclcpp::ok()` that follows failed poll number `i` of a
`callService` started in `s` says the context is still running. -/
def okAfter (env : Rclcpp) (s : State) (i : Nat) : Prop :=
  env.ok (s.rcl.oks + i) = true

/-- The first `n` polls fail and the context is ok after each of them. -/
def AbsentFor (env : Rclcpp) (s : State) (n : Nat) : Prop :=
  ∀ i, i < n → pollFails env s i ∧ okAfter env s i

/-- The endpoint is found at poll `n`, after `n` failed polls during which
the context stayed ok. -/
def ReachableAt (env : Rclcpp) (s : State) (n : Nat) : Prop :=
  AbsentFor env s n ∧ pollSucceeds env s n

/-- Polls `0..n` all fail, the context is ok after polls `0..n-1` and not ok
after poll `n`. -/
def InterruptedAt (env : Rclcpp) (s : State) (n : Nat) : Prop :=
  AbsentFor env s n ∧ pollFails env s n ∧ ¬ okAfter env s n

instance (env : Rclcpp) (s : State) (i : Nat) : Decidable (pollFails env s i) := by
  unfold pollFails; infer_instance

instance (env : Rclcpp) (s : State) (i : Nat) : Decidable (pollSucceeds env s i) := by
  unfold pollSucceeds; infer_instance

instance (env : Rclcpp) (s : State) (i : Nat) : Decidable (okAfter env s i) := by
  unfold okAfter; infer_instance

instance (env : Rclcpp) (s : State) (n : Nat) : Decidable (AbsentFor env s n) := by
  unfold AbsentFor; infer_instance

instance (env : Rclcpp) (s : State) (n : Nat) : Decidable (ReachableAt env s n) := by
  unfold ReachableAt; infer_instance

instance (env : Rclcpp) (s : State) (n : Nat) : Decidable (InterruptedAt env s n) := by
  unfold InterruptedAt; infer_instance

/-- The events of one round of the polling loop in which the poll fails and
the context is ok. -/
def pollRound (service : String) : List Event :=
  [.wait_for_service service (seconds 1), .ok, .log .INFO "Waiting for service to appear..." []]

/-- The events of `n` such rounds. -/
def pollRounds (service : String) : Nat → List Event
  | 0 => []
  | n + 1 => pollRound service ++ pollRounds service n

/-- The state `n` such rounds after `s`. -/
def afterRounds (s : State) (n : Nat) : State :=
  { self := s.self,
    rcl := { waits := s.rcl.waits + n,
             oks := s.rcl.oks + n,
             futures := s.rcl.futures,
             trace := s.rcl.trace ++ pollRounds s.self.manager_client_.service_name n } }

/-- The first log line of `callService`. -/
def logWaitingFor (s : State) : State :=
  let w := RCLCPP_LOG .INFO "Waiting for the %s service..." [s.self.manage_service_name_] s.rcl
  { s with rcl := w }

/-- The request `callService` builds for `command`, as a pending response of
a call started in `s`. -/
def commandFuture (s : State) (command : uint8_t) : Future :=
  { id := s.rcl.futures,
    service := s.self.manager_client_.service_name,
    request := .ManageLifecycleNodes command }

/-- The state in which `callService`, started in `s`, returns after being
interrupted at poll `n`. -/
def interruptedState (s : State) (n : Nat) : State :=
  { self := s.self,
    rcl := { waits := s.rcl.waits + n + 1,
             oks := s.rcl.oks + n + 1,
             futures := s.rcl.futures,
             trace := (afterRounds (logWaitingFor s) n).rcl.trace ++
               [.wait_for_service s.self.manager_client_.service_name (seconds 1),
                .ok,
                .log .ERROR "Client interrupted while waiting for service to appear" []] } }

/-- The state in which `callService`, started in `s`, returns after finding
the endpoint at poll `n`: one request was sent and waited for, and its
response was read if one came. -/
def respondedState (env : Rclcpp) (s : State) (command : uint8_t) (timeout : nanoseconds)
    (n : Nat) : State :=
  { self := s.self,
    rcl := { waits := s.rcl.waits + n + 1,
             oks := s.rcl.oks + n,
             futures := s.rcl.futures + 1,
             trace := (afterRounds (logWaitingFor s) n).rcl.trace ++
               [.wait_for_service s.self.manager_client_.service_name (seconds 1),
                .log .INFO "Sending %s request" [s.self.manage_service_name_],
                .async_send_request s.self.manager_client_.service_name
                  (.ManageLifecycleNodes command),
                .spin_until_future_complete s.rcl.futures timeout] ++
               (if env.spin_until_future_complete (commandFuture s command) timeout
                    = FutureReturnCode.SUCCESS
                then [.get s.rcl.futures] else []) } }

/-- The value `callService` returns once the endpoint was found: whether a
response came in time and says `success`. -/
def commandResult (env : Rclcpp) (s : State) (command : uint8_t) (timeout : nanoseconds) :
    Bool :=
  decide (env.spin_until_future_complete (commandFuture s command) timeout
    = FutureReturnCode.SUCCESS) && env.success (commandFuture s command)

/-- The request `is_active` builds, as a pending response of a call started
in `s`. -/
def statusFuture (s : State) : Future :=
  { id := s.rcl.futures,
    service := s.self.is_active_client_.service_name,
    request := .Trigger }

/-! ## A stub remote for concrete runs -/

/-- Modelled from the spec: the command table of the wire contract,
`1=STARTUP, 2=SHUTDOWN, 3=PAUSE, 4=RESUME, 5=RESET`; the message definition
that fixes the values is not part of the client's source file. -/
def specCodes : ManageLifecycleNodes :=
  { STARTUP := 1, SHUTDOWN := 2, PAUSE := 3, RESUME := 4, RESET := 5 }

/-- The naming rule a ROS 2 node name has to meet: not empty, made of
letters, digits and underscores only, and not starting with a digit. -/
def nodeNameRule (name : String) : Bool :=
  match name.data with
  | [] => false
  | c :: cs => !c.isDigit && (c :: cs).all (fun x => x.isAlphanum || x == '_')

/-- A stub middleware: node names have to meet `nodeNameRule`, service names
have to be non-empty, the endpoints appear at wait number `appearsAt`, the
context is ok for the first `stopsAt` checks, and every response wait ends
with `code` and a response whose `success` field is `flag`. -/
def stubRemote (appearsAt stopsAt : Nat) (code : FutureReturnCode) (flag : Bool) : Rclcpp :=
  { srv := specCodes,
    node_accepted := fun name _ => nodeNameRule name,
    service_accepted := fun service => !service.data.isEmpty,
    wait_for_service := fun k _ _ => decide (appearsAt ≤ k),
    ok := fun k => decide (k < stopsAt),
    spin_until_future_complete := fun _ _ => code,
    success := fun _ => flag }

/-- The world before anything happened. -/
def World.init : World :=
  { waits := 0, oks := 0, futures := 0, trace := [] }

/-- The client built for the base name `controller` in the initial world. -/
def controller : State :=
  { self := { manage_service_name_ := "controller/manage_nodes",
              active_service_name_ := "controller/is_active",
              node_ := { name := "controller_service_client", namespace_ := "" },
              manager_client_ := { service_name := "controller/manage_nodes" },
              is_active_client_ := { service_name := "controller/is_active" } },
    rcl := { waits := 0, oks := 0, futures := 0,
             trace := [.make_node "controller_service_client" "",
                       .create_client "controller/manage_nodes",
                       .create_client "controller/is_active"] } }

/-! ## The polling loop -/

theorem afterRounds_zero (s : State) : afterRounds s 0 = s := by
  cases s with
  | mk self rcl =>
    cases rcl
    simp [afterRounds, pollRounds]

theorem loop_afterRounds (env : Rclcpp) (m : Nat) :
    ∀ (n : Nat) (s : State), AbsentFor env s n →
      callService.loop env (m + n) s = callService.loop env m (afterRounds s n) := by
  intro n
  induction n with
  | zero => intro s _; simp [afterRounds_zero]
  | succ n ih =>
    intro s h
    have h0 := h 0 (Nat.succ_pos n)
    have hw : env.wait_for_service s.rcl.waits s.self.manager_client_.service_name (seconds 1)
        = false := by simpa [pollFails] using h0.1
    have hk : env.ok s.rcl.oks = true := by simpa [okAfter] using h0.2
    have step : callService.loop env (m + n + 1) s
        = callService.loop env (m + n) (afterRounds s 1) := by
      simp [callService.loop, wait_for_service, ok, RCLCPP_LOG, World.emit, hw, hk,
        afterRounds, pollRounds, pollRound]
    have hn : AbsentFor env (afterRounds s 1) n := by
      intro i hi
      have := h (i + 1) (Nat.succ_lt_succ hi)
      simpa [pollFails, okAfter, afterRounds, Nat.add_assoc, Nat.add_comm 1 i] using this
    have e : afterRounds (afterRounds s 1) n = afterRounds s (n + 1) := by
      simp [afterRounds, pollRounds, Nat.add_assoc, Nat.add_comm 1 n]
    rw [show m + (n + 1) = m + n + 1 from rfl, step, ih _ hn, e]

theorem absentFor_logWaitingFor (env : Rclcpp) (s : State) (n : Nat) :
    AbsentFor env (logWaitingFor s) n ↔ AbsentFor env s n := Iff.rfl

theorem callService_eq (env : Rclcpp) (command : uint8_t) (timeout : nanoseconds)
    (fuel : Nat) (s : State) :
    callService env command timeout fuel s =
      match callService.loop env fuel (logWaitingFor s) with
      | (.polling, s) => .polling s
      | (.interrupted, s) => .returned false s
      | (.appeared, s) =>
        let w := RCLCPP_LOG .INFO "Sending %s request" [s.self.manage_service_name_] s.rcl
        let (future_result, w) := async_send_request s.self.manager_client_
          (Request.ManageLifecycleNodes command) w
        let (code, w) := spin_until_future_complete env future_result timeout w
        if code ≠ FutureReturnCode.SUCCESS then
          .returned false { s with rcl := w }
        else
          let (success, w) := get_success env future_result w
          .returned success { s with rcl := w } := rfl

theorem callService_polling (env : Rclcpp) (command : uint8_t) (timeout : nanoseconds)
    (s : State) (n : Nat) (h : AbsentFor env s n) :
    callService env command timeout n s = .polling (afterRounds (logWaitingFor s) n) := by
  have h1 := loop_afterRounds env 0 n (logWaitingFor s) h
  simp only [Nat.zero_add] at h1
  rw [callService_eq, h1]
  simp [callService.loop]

theorem callService_interrupted (env : Rclcpp) (command : uint8_t) (timeout : nanoseconds)
    (s : State) (n fuel : Nat) (h : InterruptedAt env s n) (hf : n < fuel) :
    callService env command timeout fuel s = .returned false (interruptedState s n) := by
  obtain ⟨m, rfl⟩ : ∃ m, fuel = m + 1 + n := ⟨fuel - n - 1, by omega⟩
  have h1 := loop_afterRounds env (m + 1) n (logWaitingFor s) h.1
  have hw : env.wait_for_service (s.rcl.waits + n) s.self.manager_client_.service_name
      (seconds 1) = false := h.2.1
  have hk : env.ok (s.rcl.oks + n) = false := by simpa [okAfter] using h.2.2
  rw [callService_eq, h1]
  simp [callService.loop, wait_for_service, ok, RCLCPP_LOG, World.emit, afterRounds,
    logWaitingFor, interruptedState, hw, hk]

theorem callService_reached (env : Rclcpp) (command : uint8_t) (timeout : nanoseconds)
    (s : State) (n fuel : Nat) (h : ReachableAt env s n) (hf : n < fuel) :
    callService env command timeout fuel s
      = .returned (commandResult env s command timeout)
          (respondedState env s command timeout n) := by
  obtain ⟨m, rfl⟩ : ∃ m, fuel = m + 1 + n := ⟨fuel - n - 1, by omega⟩
  have h1 := loop_afterRounds env (m + 1) n (logWaitingFor s) h.1
  have hw : env.wait_for_service (s.rcl.waits + n) s.self.manager_client_.service_name
      (seconds 1) = true := h.2
  rw [callService_eq, h1]
  by_cases hc : env.spin_until_future_complete (commandFuture s command) timeout
      = FutureReturnCode.SUCCESS
  · simp [callService.loop, wait_for_service, async_send_request, spin_until_future_complete,
      get_success, RCLCPP_LOG, World.emit, afterRounds, logWaitingFor, respondedState,
      commandResult, commandFuture, hw] at hc ⊢
    simp [hc]
  · simp [callService.loop, wait_for_service, async_send_request, spin_until_future_complete,
      get_success, RCLCPP_LOG, World.emit, afterRounds, logWaitingFor, respondedState,
      commandResult, commandFuture, hw] at hc ⊢
    simp [hc]

/-- Every start state meets exactly the situations the loop distinguishes:
within `fuel` polls the endpoint stays absent, or is found, or the wait is
interrupted. -/
theorem loop_cases (env : Rclcpp) (s : State) (fuel : Nat) :
    AbsentFor env s fuel ∨ (∃ n, n < fuel ∧ ReachableAt env s n)
      ∨ (∃ n, n < fuel ∧ InterruptedAt env s n) := by
  induction fuel with
  | zero => exact Or.inl (fun i hi => absurd hi (Nat.not_lt_zero i))
  | succ k ih =>
    rcases ih with h | ⟨n, hn, h⟩ | ⟨n, hn, h⟩
    · by_cases hp : pollFails env s k
      · by_cases hk : okAfter env s k
        · refine Or.inl (fun i hi => ?_)
          rcases Nat.lt_succ_iff_lt_or_eq.mp hi with hlt | rfl
          · exact h i hlt
          · exact ⟨hp, hk⟩
        · exact Or.inr (Or.inr ⟨k, Nat.lt_succ_self k, h, hp, hk⟩)
      · refine Or.inr (Or.inl ⟨k, Nat.lt_succ_self k, h, ?_⟩)
        simpa [pollFails, pollSucceeds] using hp
    · exact Or.inr (Or.inl ⟨n, Nat.lt_succ_of_lt hn, h⟩)
    · exact Or.inr (Or.inr ⟨n, Nat.lt_succ_of_lt hn, h⟩)

/-! ## What the closed forms contain -/

theorem sent_pollRounds (service : String) (n : Nat) :
    (pollRounds service n).filterMap (fun e =>
      match e with
      | .async_send_request service request => some (service, request)
      | _ => none) = [] := by
  induction n with
  | zero => rfl
  | succ n ih => simp [pollRounds, pollRound, ih]

theorem waited_pollRounds (service : String) (n : Nat) :
    (pollRounds service n).filterMap (fun e =>
      match e with
      | .wait_for_service service timeout => some (service, timeout)
      | _ => none) = List.replicate n (service, seconds 1) := by
  induction n with
  | zero => rfl
  | succ n ih => simp [pollRounds, pollRound, ih, List.replicate_succ]

theorem sent_polling (s : State) (n : Nat) :
    (afterRounds (logWaitingFor s) n).rcl.sent = s.rcl.sent := by
  simp [World.sent, afterRounds, logWaitingFor, RCLCPP_LOG, World.emit, sent_pollRounds]

theorem waited_polling (s : State) (n : Nat) :
    (afterRounds (logWaitingFor s) n).rcl.waited
      = s.rcl.waited ++ List.replicate n (s.self.manager_client_.service_name, seconds 1) := by
  simp [World.waited, afterRounds, logWaitingFor, RCLCPP_LOG, World.emit, waited_pollRounds]

theorem sent_interrupted (s : State) (n : Nat) :
    (interruptedState s n).rcl.sent = s.rcl.sent := by
  have h := sent_polling s n
  simp only [World.sent] at h
  simp [World.sent, interruptedState, h]

theorem sent_responded (env : Rclcpp) (s : State) (command : uint8_t) (timeout : nanoseconds)
    (n : Nat) :
    (respondedState env s command timeout n).rcl.sent
      = s.rcl.sent ++ [(s.self.manager_client_.service_name, .ManageLifecycleNodes command)] := by
  have h := sent_polling s n
  simp only [World.sent] at h
  by_cases hc : env.spin_until_future_complete (commandFuture s command) timeout
      = FutureReturnCode.SUCCESS
  · simp [World.sent, respondedState, h, hc]
  · simp [World.sent, respondedState, h, hc]

theorem replicate_snoc {α : Type} (n : Nat) (a : α) :
    List.replicate n a ++ [a] = List.replicate (n + 1) a := by
  induction n with
  | zero => rfl
  | succ n ih => rw [List.replicate_succ, List.cons_append, ih]; rfl

theorem waited_interrupted (s : State) (n : Nat) :
    (interruptedState s n).rcl.waited
      = s.rcl.waited
          ++ List.replicate (n + 1) (s.self.manager_client_.service_name, seconds 1) := by
  have h := waited_polling s n
  simp only [World.waited] at h
  simp [World.waited, interruptedState, h, replicate_snoc]

theorem waited_responded (env : Rclcpp) (s : State) (command : uint8_t) (timeout : nanoseconds)
    (n : Nat) :
    (respondedState env s command timeout n).rcl.waited
      = s.rcl.waited
          ++ List.replicate (n + 1) (s.self.manager_client_.service_name, seconds 1) := by
  have h := waited_polling s n
  simp only [World.waited] at h
  by_cases hc : env.spin_until_future_complete (commandFuture s command) timeout
      = FutureReturnCode.SUCCESS
  · simp [World.waited, respondedState, h, hc, replicate_snoc]
  · simp [World.waited, respondedState, h, hc, replicate_snoc]

theorem callService_waited (env : Rclcpp) (command : uint8_t) (timeout : nanoseconds)
    (fuel : Nat) (s : State) :
    ∃ k, (callService env command timeout fuel s).state.rcl.waited
      = s.rcl.waited ++ List.replicate k (s.self.manager_client_.service_name, seconds 1) := by
  rcases loop_cases env s fuel with h | ⟨n, hn, h⟩ | ⟨n, hn, h⟩
  · exact ⟨fuel, by rw [callService_polling env command timeout s fuel h]
                    exact waited_polling s fuel⟩
  · exact ⟨n + 1, by rw [callService_reached env command timeout s n fuel h hn]
                     exact waited_responded env s command timeout n⟩
  · exact ⟨n + 1, by rw [callService_interrupted env command timeout s n fuel h hn]
                     exact waited_interrupted s n⟩

theorem is_active_waited (env : Rclcpp) (timeout : nanoseconds) (s : State) :
    (is_active env timeout s).2.rcl.waited
      = s.rcl.waited ++ [(s.self.is_active_client_.service_name, timeout)] := by
  unfold is_active
  simp only []
  split
  · simp [World.waited, wait_for_service, RCLCPP_LOG, World.emit]
  · split
    · simp [World.waited, wait_for_service, async_send_request, spin_until_future_complete,
        RCLCPP_LOG, World.emit]
    · split <;>
        simp [World.waited, wait_for_service, async_send_request, spin_until_future_complete,
          get_success, RCLCPP_LOG, World.emit]

theorem callService_reached_sent (env : Rclcpp) (command : uint8_t) (timeout : nanoseconds)
    (s : State) (n fuel : Nat) (h : ReachableAt env s n) (hf : n < fuel) :
    ∃ v s1, callService env command timeout fuel s = .returned v s1
      ∧ s1.rcl.sent = s.rcl.sent ++
          [(s.self.manager_client_.service_name, .ManageLifecycleNodes command)] :=
  ⟨_, _, callService_reached env command timeout s n fuel h hf,
    sent_responded env s command timeout n⟩

theorem callService_self (env : Rclcpp) (command : uint8_t) (timeout : nanoseconds)
    (fuel : Nat) (s : State) :
    (callService env command timeout fuel s).state.self = s.self := by
  rcases loop_cases env s fuel with h | ⟨n, hn, h⟩ | ⟨n, hn, h⟩
  · rw [callService_polling env command timeout s fuel h]; rfl
  · rw [callService_reached env command timeout s n fuel h hn]; rfl
  · rw [callService_interrupted env command timeout s n fuel h hn]; rfl

theorem is_active_self (env : Rclcpp) (timeout : nanoseconds) (s : State) :
    (is_active env timeout s).2.self = s.self := by
  unfold is_active
  simp only []
  split
  · rfl
  · split
    · rfl
    · split <;> rfl

theorem new_ok_iff (env : Rclcpp) (name namespace_ : String) (w : World) :
    (∃ s, LifecycleManagerClient.new env name namespace_ w = .ok s)
      ↔ (env.node_accepted (name ++ "_service_client") namespace_ = true
          ∧ env.service_accepted (name ++ "/manage_nodes") = true
          ∧ env.service_accepted (name ++ "/is_active") = true) := by
  unfold LifecycleManagerClient.new make_node create_client
  by_cases h1 : env.node_accepted (name ++ "_service_client") namespace_ = true
  · by_cases h2 : env.service_accepted (name ++ "/manage_nodes") = true
    · by_cases h3 : env.service_accepted (name ++ "/is_active") = true
      · simp [h1, h2, h3]
      · simp [h1, h2, h3]
    · simp [h1, h2]
  · simp [h1]

theorem new_addresses (env : Rclcpp) (name namespace_ : String) (w : World) (s : State)
    (h : LifecycleManagerClient.new env name namespace_ w = .ok s) :
    s.self.manage_service_name_ = name ++ "/manage_nodes"
      ∧ s.self.active_service_name_ = name ++ "/is_active"
      ∧ s.self.manager_client_.service_name = name ++ "/manage_nodes"
      ∧ s.self.is_active_client_.service_name = name ++ "/is_active" := by
  unfold LifecycleManagerClient.new make_node create_client at h
  by_cases h1 : env.node_accepted (name ++ "_service_client") namespace_ = true
  · by_cases h2 : env.service_accepted (name ++ "/manage_nodes") = true
    · by_cases h3 : env.service_accepted (name ++ "/is_active") = true
      · simp [h1, h2, h3] at h
        subst h
        exact ⟨rfl, rfl, rfl, rfl⟩
      · simp [h1, h2, h3] at h
    · simp [h1, h2] at h
  · simp [h1] at h

theorem new_accepted (env : Rclcpp) (name namespace_ : String) (w : World)
    (h1 : env.node_accepted (name ++ "_service_client") namespace_ = true)
    (h2 : env.service_accepted (name ++ "/manage_nodes") = true)
    (h3 : env.service_accepted (name ++ "/is_active") = true) :
    LifecycleManagerClient.new env name namespace_ w
      = .ok { self := { manage_service_name_ := name ++ "/manage_nodes",
                        active_service_name_ := name ++ "/is_active",
                        node_ := { name := name ++ "_service_client",
                                   namespace_ := namespace_ },
                        manager_client_ := { service_name := name ++ "/manage_nodes" },
                        is_active_client_ := { service_name := name ++ "/is_active" } },
              rcl := { waits := w.waits,
                       oks := w.oks,
                       futures := w.futures,
                       trace := w.trace ++
                         [.make_node (name ++ "_service_client") namespace_,
                          .create_client (name ++ "/manage_nodes"),
                          .create_client (name ++ "/is_active")] } } := by
  simp [LifecycleManagerClient.new, make_node, create_client, World.emit, h1, h2, h3]

theorem pollRounds_add (service : String) (n d : Nat) :
    pollRounds service (n + d) = pollRounds service n ++ pollRounds service d := by
  induction n with
  | zero => simp [pollRounds]
  | succ n ih =>
    rw [show n + 1 + d = (n + d) + 1 by omega]
    simp [pollRounds, ih]

/-- After `n` failed rounds, whatever comes next starts with one more poll of
one second. -/
theorem pollRounds_then_poll (service : String) (n m : Nat) (h : n ≤ m) (tail : List Event) :
    ∃ rest, pollRounds service m ++ (Event.wait_for_service service (seconds 1) :: tail)
      = pollRounds service n ++ (Event.wait_for_service service (seconds 1) :: rest) := by
  obtain ⟨d, rfl⟩ : ∃ d, m = n + d := ⟨m - n, by omega⟩
  rw [pollRounds_add]
  cases d with
  | zero => exact ⟨tail, by simp [pollRounds]⟩
  | succ d =>
    exact ⟨_, by simp only [pollRounds, pollRound, List.append_assoc, List.cons_append,
      List.nil_append]; rfl⟩

theorem callService_polls_again (env : Rclcpp) (command : uint8_t) (timeout : nanoseconds)
    (s : State) (n fuel : Nat) (h : AbsentFor env s n) (hf : n < fuel) :
    ∃ rest, (callService env command timeout fuel s).state.rcl.trace
      = (afterRounds (logWaitingFor s) n).rcl.trace ++
          (Event.wait_for_service s.self.manager_client_.service_name (seconds 1) :: rest) := by
  rcases loop_cases env s fuel with hc | ⟨m, hm, hc⟩ | ⟨m, hm, hc⟩
  · rw [callService_polling env command timeout s fuel hc]
    obtain ⟨d, rfl⟩ : ∃ d, fuel = n + (d + 1) := ⟨fuel - n - 1, by omega⟩
    refine ⟨[.ok, .log .INFO "Waiting for service to appear..." []] ++
      pollRounds s.self.manager_client_.service_name d, ?_⟩
    simp only [Run.state, afterRounds, logWaitingFor, RCLCPP_LOG, World.emit]
    rw [pollRounds_add]
    simp [pollRounds, pollRound]
  · have hnm : n ≤ m := by
      by_contra hlt
      have h1 : pollFails env s m := (h m (Nat.lt_of_not_le hlt)).1
      have h2 : pollSucceeds env s m := hc.2
      simp only [pollFails, pollSucceeds] at h1 h2
      rw [h1] at h2
      cases h2
    rw [callService_reached env command timeout s m fuel hc hm]
    obtain ⟨rest, hr⟩ := pollRounds_then_poll s.self.manager_client_.service_name n m hnm
      ([.log .INFO "Sending %s request" [s.self.manage_service_name_],
        .async_send_request s.self.manager_client_.service_name (.ManageLifecycleNodes command),
        .spin_until_future_complete s.rcl.futures timeout] ++
        (if env.spin_until_future_complete (commandFuture s command) timeout
            = FutureReturnCode.SUCCESS
         then [.get s.rcl.futures] else []))
    refine ⟨rest, ?_⟩
    simp only [Run.state, respondedState, afterRounds, logWaitingFor, RCLCPP_LOG, World.emit,
      List.append_assoc, List.cons_append, List.nil_append] at hr ⊢
    rw [hr]
  · have hnm : n ≤ m := by
      by_contra hlt
      exact hc.2.2 (h m (Nat.lt_of_not_le hlt)).2
    rw [callService_interrupted env command timeout s m fuel hc hm]
    obtain ⟨rest, hr⟩ := pollRounds_then_poll s.self.manager_client_.service_name n m hnm
      [.ok, .log .ERROR "Client interrupted while waiting for service to appear" []]
    refine ⟨rest, ?_⟩
    simp only [Run.state, interruptedState, afterRounds, logWaitingFor, RCLCPP_LOG, World.emit,
      List.append_assoc, List.cons_append, List.nil_append] at hr ⊢
    rw [hr]

/-! ## The command operations -/

/-- C1: each of `startup`, `shutdown`, `pause`, `resume` and `reset` is
`callService` applied to its own command code and the same timeout; and when
the command endpoint is found reachable (at poll `n`, with enough fuel to get
there), the operation returns and has sent exactly one request, to the
command endpoint, whose `command` field is the code of that operation. -/
theorem operations_send_their_code (env : Rclcpp) (timeout : nanoseconds) (fuel : Nat)
    (s : State) (n : Nat) (h : ReachableAt env s n) (hf : n < fuel) :
    (startup env timeout fuel s = callService env env.srv.STARTUP timeout fuel s
      ∧ (∃ v s1, startup env timeout fuel s = .returned v s1
          ∧ s1.rcl.sent = s.rcl.sent ++
              [(s.self.manager_client_.service_name, .ManageLifecycleNodes env.srv.STARTUP)]))
    ∧ (shutdown env timeout fuel s = callService env env.srv.SHUTDOWN timeout fuel s
      ∧ (∃ v s1, shutdown env timeout fuel s = .returned v s1
          ∧ s1.rcl.sent = s.rcl.sent ++
              [(s.self.manager_client_.service_name, .ManageLifecycleNodes env.srv.SHUTDOWN)]))
    ∧ (pause env timeout fuel s = callService env env.srv.PAUSE timeout fuel s
      ∧ (∃ v s1, pause env timeout fuel s = .returned v s1
          ∧ s1.rcl.sent = s.rcl.sent ++
              [(s.self.manager_client_.service_name, .ManageLifecycleNodes env.srv.PAUSE)]))
    ∧ (resume env timeout fuel s = callService env env.srv.RESUME timeout fuel s
      ∧ (∃ v s1, resume env timeout fuel s = .returned v s1
          ∧ s1.rcl.sent = s.rcl.sent ++
              [(s.self.manager_client_.service_name, .ManageLifecycleNodes env.srv.RESUME)]))
    ∧ (reset env timeout fuel s = callService env env.srv.RESET timeout fuel s
      ∧ (∃ v s1, reset env timeout fuel s = .returned v s1
          ∧ s1.rcl.sent = s.rcl.sent ++
              [(s.self.manager_client_.service_name, .ManageLifecycleNodes env.srv.RESET)])) := by
  exact ⟨⟨rfl, callService_reached_sent env env.srv.STARTUP timeout s n fuel h hf⟩,
    ⟨rfl, callService_reached_sent env env.srv.SHUTDOWN timeout s n fuel h hf⟩,
    ⟨rfl, callService_reached_sent env env.srv.PAUSE timeout s n fuel h hf⟩,
    ⟨rfl, callService_reached_sent env env.srv.RESUME timeout s n fuel h hf⟩,
    ⟨rfl, callService_reached_sent env env.srv.RESET timeout s n fuel h hf⟩⟩

/-- C1 at a concrete run: the endpoint appears at the third poll; `resume`
then sends exactly the one request carrying `RESUME`. -/
theorem operations_send_their_code_witness :
    ReachableAt (stubRemote 2 5 .SUCCESS true) controller 2
    ∧ ∃ v s1, resume (stubRemote 2 5 .SUCCESS true) (seconds 3) 4 controller = .returned v s1
        ∧ s1.rcl.sent = [("controller/manage_nodes", .ManageLifecycleNodes 4)] :=
  ⟨by decide,
   (operations_send_their_code (stubRemote 2 5 .SUCCESS true) (seconds 3) 4 controller 2
      (by decide) (by decide)).2.2.2.1.2⟩

/-- C2: `callService` returns true exactly when the command endpoint was
found reachable, the response wait ended with `SUCCESS`, and the response's
`success` field is true.  Whenever the endpoint is found reachable the call
does return, and it returns false if the response says `success = false` and
also if no response arrives within the timeout. -/
theorem callService_true_iff (env : Rclcpp) (command : uint8_t) (timeout : nanoseconds)
    (s : State) :
    (∀ fuel v s1, callService env command timeout fuel s = .returned v s1 →
        (v = true ↔
          (∃ n, ReachableAt env s n)
          ∧ env.spin_until_future_complete (commandFuture s command) timeout
              = FutureReturnCode.SUCCESS
          ∧ env.success (commandFuture s command) = true))
    ∧ (∀ n fuel, ReachableAt env s n → n < fuel →
        ∃ v s1, callService env command timeout fuel s = .returned v s1
          ∧ (v = true ↔
              env.spin_until_future_complete (commandFuture s command) timeout
                = FutureReturnCode.SUCCESS
              ∧ env.success (commandFuture s command) = true))
    ∧ (∀ n fuel, ReachableAt env s n → n < fuel →
        env.spin_until_future_complete (commandFuture s command) timeout
          = FutureReturnCode.SUCCESS →
        env.success (commandFuture s command) = false →
        ∃ s1, callService env command timeout fuel s = .returned false s1)
    ∧ (∀ n fuel, ReachableAt env s n → n < fuel →
        env.spin_until_future_complete (commandFuture s command) timeout
          ≠ FutureReturnCode.SUCCESS →
        ∃ s1, callService env command timeout fuel s = .returned false s1) := by
  refine ⟨?_, ?_, ?_, ?_⟩
  · intro fuel v s1 hret
    rcases loop_cases env s fuel with h | ⟨n, hn, h⟩ | ⟨n, hn, h⟩
    · rw [callService_polling env command timeout s fuel h] at hret
      cases hret
    · rw [callService_reached env command timeout s n fuel h hn] at hret
      injection hret with hv _
      subst hv
      constructor
      · intro hr
        simp only [commandResult, Bool.and_eq_true, decide_eq_true_eq] at hr
        exact ⟨⟨n, h⟩, hr.1, hr.2⟩
      · rintro ⟨_, h1, h2⟩
        simp [commandResult, h1, h2]
    · rw [callService_interrupted env command timeout s n fuel h hn] at hret
      injection hret with hv _
      subst hv
      constructor
      · intro hr
        cases hr
      · rintro ⟨⟨k, hk⟩, _, _⟩
        exfalso
        rcases Nat.lt_trichotomy k n with hlt | heq | hgt
        · have h1 : pollFails env s k := (h.1 k hlt).1
          have h2 : pollSucceeds env s k := hk.2
          simp [pollFails, pollSucceeds] at h1 h2
          rw [h1] at h2
          cases h2
        · subst heq
          have h1 : pollFails env s k := h.2.1
          have h2 : pollSucceeds env s k := hk.2
          simp [pollFails, pollSucceeds] at h1 h2
          rw [h1] at h2
          cases h2
        · exact h.2.2 (hk.1 n hgt).2
  · intro n fuel h hn
    refine ⟨_, _, callService_reached env command timeout s n fuel h hn, ?_⟩
    simp [commandResult]
  · intro n fuel h hn h1 h2
    refine ⟨respondedState env s command timeout n, ?_⟩
    rw [callService_reached env command timeout s n fuel h hn]
    simp [commandResult, h1, h2]
  · intro n fuel h hn h1
    refine ⟨respondedState env s command timeout n, ?_⟩
    rw [callService_reached env command timeout s n fuel h hn]
    simp [commandResult, h1]

/-- C2 at a concrete run: the endpoint appears at the second poll and the
remote answers `success = true` in time, so the call returns true. -/
theorem callService_true_iff_witness :
    ∃ s1, callService (stubRemote 1 5 .SUCCESS true) 3 (seconds 2) 2 controller
      = .returned true s1 := by
  obtain ⟨v, s1, hret, hv⟩ :=
    (callService_true_iff (stubRemote 1 5 .SUCCESS true) 3 (seconds 2) controller).2.1 1 2
      (by decide) (by decide)
  have : v = true := hv.mpr ⟨rfl, rfl⟩
  subst this
  exact ⟨s1, hret⟩

/-- C3: if every poll of the command endpoint fails up to and including the
first one after which `rclcpp::ok()` is false (poll `n`), `callService`
returns false, and no request was sent. -/
theorem callService_interrupted_returns_false (env : Rclcpp) (command : uint8_t)
    (timeout : nanoseconds) (s : State) (n fuel : Nat) (h : InterruptedAt env s n)
    (hf : n < fuel) :
    ∃ s1, callService env command timeout fuel s = .returned false s1
      ∧ s1.rcl.sent = s.rcl.sent
      ∧ s1.rcl.futures = s.rcl.futures :=
  ⟨interruptedState s n, callService_interrupted env command timeout s n fuel h hf,
    sent_interrupted s n, rfl⟩

/-- C3 at a concrete run: the endpoint never appears and the context stops
being ok at the third check. -/
theorem callService_interrupted_returns_false_witness :
    InterruptedAt (stubRemote 100 2 .SUCCESS true) controller 2
    ∧ ∃ s1, callService (stubRemote 100 2 .SUCCESS true) 1 (seconds 2) 7 controller
        = .returned false s1 ∧ s1.rcl.sent = [] ∧ s1.rcl.futures = 0 :=
  ⟨by decide,
   callService_interrupted_returns_false (stubRemote 100 2 .SUCCESS true) 1 (seconds 2)
     controller 2 7 (by decide) (by decide)⟩

/-- C8: against a remote whose command endpoint is always reachable and that
always answers `success = true` within the timeout, `pause` called twice in
sequence returns true both times; each call sends one request carrying
`PAUSE`, so two are observed; and the client object the second call runs on
is the one the first call started from. -/
theorem pause_twice (env : Rclcpp) (timeout : nanoseconds) (fuel1 fuel2 : Nat) (s : State)
    (hreach : ∀ k, env.wait_for_service k s.self.manager_client_.service_name (seconds 1)
      = true)
    (hspin : ∀ f, env.spin_until_future_complete f timeout = FutureReturnCode.SUCCESS)
    (hsuccess : ∀ f, env.success f = true)
    (hf1 : 0 < fuel1) (hf2 : 0 < fuel2) :
    ∃ s1 s2, pause env timeout fuel1 s = .returned true s1
      ∧ pause env timeout fuel2 s1 = .returned true s2
      ∧ s1.self = s.self
      ∧ s2.self = s.self
      ∧ s1.rcl.sent = s.rcl.sent ++
          [(s.self.manager_client_.service_name, .ManageLifecycleNodes env.srv.PAUSE)]
      ∧ s2.rcl.sent = s.rcl.sent ++
          [(s.self.manager_client_.service_name, .ManageLifecycleNodes env.srv.PAUSE),
           (s.self.manager_client_.service_name, .ManageLifecycleNodes env.srv.PAUSE)] := by
  have r1 : ReachableAt env s 0 :=
    ⟨fun i hi => absurd hi (Nat.not_lt_zero i), hreach _⟩
  have r2 : ReachableAt env (respondedState env s env.srv.PAUSE timeout 0) 0 :=
    ⟨fun i hi => absurd hi (Nat.not_lt_zero i), hreach _⟩
  have v1 : commandResult env s env.srv.PAUSE timeout = true := by
    simp [commandResult, hspin, hsuccess]
  have v2 : commandResult env (respondedState env s env.srv.PAUSE timeout 0) env.srv.PAUSE
      timeout = true := by
    simp [commandResult, hspin, hsuccess]
  have e1 := callService_reached env env.srv.PAUSE timeout s 0 fuel1 r1 hf1
  have e2 := callService_reached env env.srv.PAUSE timeout
    (respondedState env s env.srv.PAUSE timeout 0) 0 fuel2 r2 hf2
  rw [v1] at e1
  rw [v2] at e2
  refine ⟨_, _, e1, e2, rfl, rfl, sent_responded env s env.srv.PAUSE timeout 0, ?_⟩
  rw [sent_responded, sent_responded]
  simp [respondedState]

/-- C8 at a concrete run on the `controller` client. -/
theorem pause_twice_witness :
    ∃ s1 s2, pause (stubRemote 0 1 .SUCCESS true) (seconds 2) 1 controller = .returned true s1
      ∧ pause (stubRemote 0 1 .SUCCESS true) (seconds 2) 1 s1 = .returned true s2
      ∧ s2.rcl.sent = [("controller/manage_nodes", .ManageLifecycleNodes 3),
                       ("controller/manage_nodes", .ManageLifecycleNodes 3)] := by
  obtain ⟨s1, s2, h1, h2, _, _, _, h6⟩ :=
    pause_twice (stubRemote 0 1 .SUCCESS true) (seconds 2) 1 1 controller
      (fun k => by simp [stubRemote]) (fun _ => rfl) (fun _ => rfl) (by decide) (by decide)
  exact ⟨s1, s2, h1, h2, h6⟩

/-- C9: the availability wait of `callService` does not look at the caller's
timeout.  If the first `n` polls fail while the context stays ok, then after
those `n` polls the call has not returned; it made `n` waits of one second
each and sent no request; the state it stands in is the same for every
timeout; and with any more fuel the next thing it does is to poll again, for
one second.  However far a call gets, each of its availability waits is for
one second, whereas `is_active` makes its one availability wait with the
caller's timeout. -/
theorem callService_keeps_polling (env : Rclcpp) (command : uint8_t) (timeout : nanoseconds)
    (s : State) (n : Nat) (h : AbsentFor env s n) :
    callService env command timeout n s = .polling (afterRounds (logWaitingFor s) n)
    ∧ (afterRounds (logWaitingFor s) n).rcl.sent = s.rcl.sent
    ∧ (afterRounds (logWaitingFor s) n).rcl.waited
        = s.rcl.waited ++ List.replicate n (s.self.manager_client_.service_name, seconds 1)
    ∧ (∀ timeout2, callService env command timeout2 n s = callService env command timeout n s)
    ∧ (∀ fuel, n < fuel →
        ∃ rest, (callService env command timeout fuel s).state.rcl.trace
          = (afterRounds (logWaitingFor s) n).rcl.trace ++
              (Event.wait_for_service s.self.manager_client_.service_name (seconds 1)
                :: rest))
    ∧ (∀ fuel, ∃ k, (callService env command timeout fuel s).state.rcl.waited
        = s.rcl.waited ++ List.replicate k (s.self.manager_client_.service_name, seconds 1))
    ∧ (is_active env timeout s).2.rcl.waited
        = s.rcl.waited ++ [(s.self.is_active_client_.service_name, timeout)] := by
  refine ⟨callService_polling env command timeout s n h, sent_polling s n, waited_polling s n,
    ?_, ?_, ?_, is_active_waited env timeout s⟩
  · intro timeout2
    rw [callService_polling env command timeout s n h,
      callService_polling env command timeout2 s n h]
  · intro fuel hf
    exact callService_polls_again env command timeout s n fuel h hf
  · intro fuel
    exact callService_waited env command timeout fuel s

/-- C9 at a concrete run with timeout zero: the endpoint is absent for the
first three polls, and after them the call is still polling. -/
theorem callService_keeps_polling_witness :
    AbsentFor (stubRemote 5 9 .SUCCESS true) controller 3
    ∧ callService (stubRemote 5 9 .SUCCESS true) 1 0 3 controller
        = .polling (afterRounds (logWaitingFor controller) 3)
    ∧ (afterRounds (logWaitingFor controller) 3).rcl.waited
        = [("controller/manage_nodes", 1000000000), ("controller/manage_nodes", 1000000000),
           ("controller/manage_nodes", 1000000000)] :=
  ⟨by decide,
   (callService_keeps_polling (stubRemote 5 9 .SUCCESS true) 1 0 controller 3 (by decide)).1,
   (callService_keeps_polling (stubRemote 5 9 .SUCCESS true) 1 0 controller 3 (by decide)).2.2.1⟩

/-- C10: in `callService` the answer of `rclcpp::ok()` matters only after a
failed poll.  If the endpoint is found at poll `n` (the polls before failed,
with the context ok after each), the call sends its request and returns what
the response wait gives, having consulted `rclcpp::ok()` exactly `n` times;
and nothing changes if the context's answers from then on are replaced by
arbitrary ones.  `is_active` never consults `rclcpp::ok()`: its outcome is the
same for every sequence of answers, and it makes no such call. -/
theorem ok_consulted_only_after_failed_poll (env : Rclcpp) (command : uint8_t)
    (timeout : nanoseconds) (s : State) (n fuel : Nat) (h : ReachableAt env s n)
    (hf : n < fuel) :
    (∃ s1, callService env command timeout fuel s
        = .returned (decide (env.spin_until_future_complete (commandFuture s command) timeout
            = FutureReturnCode.SUCCESS) && env.success (commandFuture s command)) s1
      ∧ s1.rcl.sent = s.rcl.sent ++
          [(s.self.manager_client_.service_name, .ManageLifecycleNodes command)]
      ∧ s1.rcl.oks = s.rcl.oks + n)
    ∧ (∀ later : Nat → Bool,
        callService
            { env with ok := fun k => if k < s.rcl.oks + n then env.ok k else later k }
            command timeout fuel s
          = callService env command timeout fuel s)
    ∧ (∀ (answers : Nat → Bool) (timeout2 : nanoseconds) (t : State),
        is_active { env with ok := answers } timeout2 t = is_active env timeout2 t
          ∧ (is_active env timeout2 t).2.rcl.oks = t.rcl.oks) := by
  refine ⟨⟨respondedState env s command timeout n,
    callService_reached env command timeout s n fuel h hf,
    sent_responded env s command timeout n, rfl⟩, ?_, ?_⟩
  · intro later
    have h2 : ReachableAt
        { env with ok := fun k => if k < s.rcl.oks + n then env.ok k else later k } s n := by
      refine ⟨fun i hi => ⟨(h.1 i hi).1, ?_⟩, h.2⟩
      have hlt : s.rcl.oks + i < s.rcl.oks + n := by omega
      simpa [okAfter, hlt] using (h.1 i hi).2
    rw [callService_reached _ command timeout s n fuel h2 hf,
      callService_reached env command timeout s n fuel h hf]
    rfl
  · intro answers timeout2 t
    refine ⟨rfl, ?_⟩
    unfold is_active
    simp only []
    split
    · rfl
    · split
      · rfl
      · split <;> rfl

/-- C10 at a concrete run: the context is ok only for the first check, the
endpoint appears at the second poll, and the call still returns true. -/
theorem ok_consulted_only_after_failed_poll_witness :
    ReachableAt (stubRemote 1 1 .SUCCESS true) controller 1
    ∧ ∃ s1, callService (stubRemote 1 1 .SUCCESS true) 5 (seconds 2) 2 controller
        = .returned true s1
      ∧ s1.rcl.sent = [("controller/manage_nodes", .ManageLifecycleNodes 5)]
      ∧ s1.rcl.oks = 1 :=
  ⟨by decide,
   (ok_consulted_only_after_failed_poll (stubRemote 1 1 .SUCCESS true) 5 (seconds 2)
      controller 1 2 (by decide) (by decide)).1⟩

/-! ## The status query -/

/-- C4: if the one call `wait_for_service(timeout)` on the status endpoint
returns false, `is_active` returns `TIMEOUT` having done nothing but log one
line and make that one wait, with the caller's timeout: no request was sent
and no second wait was made. -/
theorem is_active_unreachable (env : Rclcpp) (timeout : nanoseconds) (s : State)
    (h : env.wait_for_service s.rcl.waits s.self.is_active_client_.service_name timeout
      = false) :
    is_active env timeout s
        = (SystemStatus.TIMEOUT,
           { self := s.self,
             rcl := { waits := s.rcl.waits + 1,
                      oks := s.rcl.oks,
                      futures := s.rcl.futures,
                      trace := s.rcl.trace ++
                        [.log .INFO "Waiting for the %s service..." [s.self.active_service_name_],
                         .wait_for_service s.self.is_active_client_.service_name timeout] } })
      ∧ (is_active env timeout s).2.rcl.sent = s.rcl.sent
      ∧ (is_active env timeout s).2.rcl.waited
          = s.rcl.waited ++ [(s.self.is_active_client_.service_name, timeout)] := by
  have e : is_active env timeout s
        = (SystemStatus.TIMEOUT,
           { self := s.self,
             rcl := { waits := s.rcl.waits + 1,
                      oks := s.rcl.oks,
                      futures := s.rcl.futures,
                      trace := s.rcl.trace ++
                        [.log .INFO "Waiting for the %s service..." [s.self.active_service_name_],
                         .wait_for_service s.self.is_active_client_.service_name timeout] } }) := by
    simp [is_active, wait_for_service, RCLCPP_LOG, World.emit, h]
  refine ⟨e, ?_, ?_⟩
  · rw [e]; simp [World.sent]
  · rw [e]; simp [World.waited]

/-- C4 at a concrete run: the status endpoint is absent at the first wait. -/
theorem is_active_unreachable_witness :
    (is_active (stubRemote 1 0 .SUCCESS true) (seconds 2) controller).1 = SystemStatus.TIMEOUT
    ∧ (is_active (stubRemote 1 0 .SUCCESS true) (seconds 2) controller).2.rcl.sent = []
    ∧ (is_active (stubRemote 1 0 .SUCCESS true) (seconds 2) controller).2.rcl.waited
        = [("controller/is_active", 2000000000)] := by
  have h := is_active_unreachable (stubRemote 1 0 .SUCCESS true) (seconds 2) controller
    (by decide)
  exact ⟨by rw [h.1], h.2.1, h.2.2⟩

/-- C5: when the status endpoint is reachable within the timeout, `is_active`
sends exactly one (empty) request to it and returns `TIMEOUT` if the response
wait does not end with `SUCCESS`, `ACTIVE` if it does and the response says
`success = true`, `INACTIVE` if it does and the response says
`success = false`.  In any case `ACTIVE` and `INACTIVE` are only returned when
the endpoint was reachable and the response wait ended with `SUCCESS`, and
the value returned is one of the three. -/
theorem is_active_classifies (env : Rclcpp) (timeout : nanoseconds) (s : State) :
    (env.wait_for_service s.rcl.waits s.self.is_active_client_.service_name timeout = true →
      (is_active env timeout s).2.rcl.sent
          = s.rcl.sent ++ [(s.self.is_active_client_.service_name, Request.Trigger)]
        ∧ (env.spin_until_future_complete (statusFuture s) timeout ≠ FutureReturnCode.SUCCESS →
            (is_active env timeout s).1 = SystemStatus.TIMEOUT)
        ∧ (env.spin_until_future_complete (statusFuture s) timeout = FutureReturnCode.SUCCESS →
            env.success (statusFuture s) = true →
            (is_active env timeout s).1 = SystemStatus.ACTIVE)
        ∧ (env.spin_until_future_complete (statusFuture s) timeout = FutureReturnCode.SUCCESS →
            env.success (statusFuture s) = false →
            (is_active env timeout s).1 = SystemStatus.INACTIVE))
    ∧ ((is_active env timeout s).1 ≠ SystemStatus.TIMEOUT →
        env.wait_for_service s.rcl.waits s.self.is_active_client_.service_name timeout = true
        ∧ env.spin_until_future_complete (statusFuture s) timeout = FutureReturnCode.SUCCESS
        ∧ (is_active env timeout s).2.rcl.sent
            = s.rcl.sent ++ [(s.self.is_active_client_.service_name, Request.Trigger)])
    ∧ ((is_active env timeout s).1 = SystemStatus.TIMEOUT
        ∨ (is_active env timeout s).1 = SystemStatus.ACTIVE
        ∨ (is_active env timeout s).1 = SystemStatus.INACTIVE) := by
  by_cases hw : env.wait_for_service s.rcl.waits s.self.is_active_client_.service_name timeout
      = true
  · by_cases hc : env.spin_until_future_complete (statusFuture s) timeout
        = FutureReturnCode.SUCCESS
    · by_cases hs : env.success (statusFuture s) = true
      · simp [statusFuture] at hc hs
        simp [is_active, wait_for_service, async_send_request, spin_until_future_complete,
          get_success, RCLCPP_LOG, World.emit, World.sent, statusFuture, hw, hc, hs]
      · simp [statusFuture] at hc hs
        simp [is_active, wait_for_service, async_send_request, spin_until_future_complete,
          get_success, RCLCPP_LOG, World.emit, World.sent, statusFuture, hw, hc, hs]
    · simp [statusFuture] at hc
      simp [is_active, wait_for_service, async_send_request, spin_until_future_complete,
        get_success, RCLCPP_LOG, World.emit, World.sent, statusFuture, hw, hc]
  · simp [is_active, wait_for_service, RCLCPP_LOG, World.emit, hw]

/-- C5 at a concrete run: the status endpoint is there and answers
`success = false` in time, so the status is `INACTIVE` after one request. -/
theorem is_active_classifies_witness :
    (is_active (stubRemote 0 0 .SUCCESS false) (seconds 2) controller).1 = SystemStatus.INACTIVE
    ∧ (is_active (stubRemote 0 0 .SUCCESS false) (seconds 2) controller).2.rcl.sent
        = [("controller/is_active", Request.Trigger)] :=
  ⟨((is_active_classifies (stubRemote 0 0 .SUCCESS false) (seconds 2) controller).1
      (by decide)).2.2.2 rfl rfl,
   ((is_active_classifies (stubRemote 0 0 .SUCCESS false) (seconds 2) controller).1
      (by decide)).1⟩

/-! ## Construction -/

/-- C6: for every base name `name`, whenever the middleware accepts the node
and the two service clients, construction yields a client, and that client is
the one with the command address `name ++ "/manage_nodes"` and the status
address `name ++ "/is_active"`, with its two service clients bound to these
and its node named `name ++ "_service_client"`; construction yields a client
in no other case.  The namespace argument only goes into the node: two
constructions for the same base name give the same two addresses, whatever
their namespaces.  No operation changes the client object, on whatever state
it runs. -/
theorem addresses_from_base_name (env : Rclcpp) (name namespace_ : String) (w : World) :
    (env.node_accepted (name ++ "_service_client") namespace_ = true →
      env.service_accepted (name ++ "/manage_nodes") = true →
      env.service_accepted (name ++ "/is_active") = true →
      LifecycleManagerClient.new env name namespace_ w
        = .ok { self := { manage_service_name_ := name ++ "/manage_nodes",
                          active_service_name_ := name ++ "/is_active",
                          node_ := { name := name ++ "_service_client",
                                     namespace_ := namespace_ },
                          manager_client_ := { service_name := name ++ "/manage_nodes" },
                          is_active_client_ := { service_name := name ++ "/is_active" } },
                rcl := { waits := w.waits,
                         oks := w.oks,
                         futures := w.futures,
                         trace := w.trace ++
                           [.make_node (name ++ "_service_client") namespace_,
                            .create_client (name ++ "/manage_nodes"),
                            .create_client (name ++ "/is_active")] } })
    ∧ ((∃ s, LifecycleManagerClient.new env name namespace_ w = .ok s)
        ↔ (env.node_accepted (name ++ "_service_client") namespace_ = true
            ∧ env.service_accepted (name ++ "/manage_nodes") = true
            ∧ env.service_accepted (name ++ "/is_active") = true))
    ∧ (∀ s, LifecycleManagerClient.new env name namespace_ w = .ok s →
        s.self.manage_service_name_ = name ++ "/manage_nodes"
          ∧ s.self.active_service_name_ = name ++ "/is_active"
          ∧ s.self.manager_client_.service_name = name ++ "/manage_nodes"
          ∧ s.self.is_active_client_.service_name = name ++ "/is_active")
    ∧ (∀ (env2 : Rclcpp) (namespace2 : String) (w2 : World) (s s2 : State),
        LifecycleManagerClient.new env name namespace_ w = .ok s →
        LifecycleManagerClient.new env2 name namespace2 w2 = .ok s2 →
        s2.self.manage_service_name_ = s.self.manage_service_name_
          ∧ s2.self.active_service_name_ = s.self.active_service_name_)
    ∧ (∀ (env2 : Rclcpp) (command : uint8_t) (timeout : nanoseconds) (fuel : Nat) (t : State),
        (callService env2 command timeout fuel t).state.self = t.self
          ∧ (startup env2 timeout fuel t).state.self = t.self
          ∧ (shutdown env2 timeout fuel t).state.self = t.self
          ∧ (pause env2 timeout fuel t).state.self = t.self
          ∧ (resume env2 timeout fuel t).state.self = t.self
          ∧ (reset env2 timeout fuel t).state.self = t.self
          ∧ (is_active env2 timeout t).2.self = t.self) := by
  refine ⟨new_accepted env name namespace_ w, new_ok_iff env name namespace_ w,
    new_addresses env name namespace_ w, ?_, ?_⟩
  · intro env2 namespace2 w2 s s2 h h2
    have ha := new_addresses env name namespace_ w s h
    have hb := new_addresses env2 name namespace2 w2 s2 h2
    exact ⟨hb.1.trans ha.1.symm, hb.2.1.trans ha.2.1.symm⟩
  · intro env2 command timeout fuel t
    exact ⟨callService_self env2 command timeout fuel t,
      callService_self env2 env2.srv.STARTUP timeout fuel t,
      callService_self env2 env2.srv.SHUTDOWN timeout fuel t,
      callService_self env2 env2.srv.PAUSE timeout fuel t,
      callService_self env2 env2.srv.RESUME timeout fuel t,
      callService_self env2 env2.srv.RESET timeout fuel t,
      is_active_self env2 timeout t⟩

/-- C6 at two base names and two namespaces: for `controller` construction
gives the client with the addresses `controller/manage_nodes` and
`controller/is_active`, and for `planner` in the namespace `robot1` the
addresses are `planner/manage_nodes` and `planner/is_active`. -/
theorem addresses_from_base_name_witness :
    LifecycleManagerClient.new (stubRemote 0 1 .SUCCESS true) "controller" "" World.init
        = .ok controller
    ∧ controller.self.manage_service_name_ = "controller/manage_nodes"
    ∧ controller.self.active_service_name_ = "controller/is_active"
    ∧ (∃ s, LifecycleManagerClient.new (stubRemote 0 1 .SUCCESS true) "planner" "robot1"
          World.init = .ok s
        ∧ s.self.manage_service_name_ = "planner/manage_nodes"
        ∧ s.self.active_service_name_ = "planner/is_active") :=
  ⟨(addresses_from_base_name (stubRemote 0 1 .SUCCESS true) "controller" "" World.init).1
      (by decide) (by decide) (by decide),
   ((addresses_from_base_name (stubRemote 0 1 .SUCCESS true) "controller" "" World.init).2.2.1
      controller rfl).1,
   ((addresses_from_base_name (stubRemote 0 1 .SUCCESS true) "controller" "" World.init).2.2.1
      controller rfl).2.1,
   ⟨_, (addresses_from_base_name (stubRemote 0 1 .SUCCESS true) "planner" "robot1"
      World.init).1 (by decide) (by decide) (by decide), rfl, rfl⟩⟩

/-- C7, refuted as stated: with a middleware that applies the node-name rule
and refuses empty service names, constructing with the empty base name
succeeds and yields the addresses `/manage_nodes` and `/is_active`. -/
theorem empty_base_name_constructs :
    ∃ s, LifecycleManagerClient.new (stubRemote 0 1 .SUCCESS true) "" "" World.init = .ok s
      ∧ s.self.manage_service_name_ = "/manage_nodes"
      ∧ s.self.active_service_name_ = "/is_active" :=
  ⟨_, rfl, rfl, rfl⟩

/-- C7, amended: the constructor does not inspect the base name.  With the
empty base name it succeeds exactly when the middleware accepts the node name
`_service_client` (in the given namespace) and the service names
`/manage_nodes` and `/is_active`, and the client it then produces has the
addresses `/manage_nodes` and `/is_active`; for every base name, success
depends only on what the middleware accepts. -/
theorem construction_fails_only_in_middleware (env : Rclcpp) (namespace_ : String) (w : World) :
    ((∃ s, LifecycleManagerClient.new env "" namespace_ w = .ok s)
        ↔ (env.node_accepted "_service_client" namespace_ = true
            ∧ env.service_accepted "/manage_nodes" = true
            ∧ env.service_accepted "/is_active" = true))
    ∧ (∀ s, LifecycleManagerClient.new env "" namespace_ w = .ok s →
        s.self.manage_service_name_ = "/manage_nodes"
          ∧ s.self.active_service_name_ = "/is_active")
    ∧ (∀ name, (∃ s, LifecycleManagerClient.new env name namespace_ w = .ok s)
        ↔ (env.node_accepted (name ++ "_service_client") namespace_ = true
            ∧ env.service_accepted (name ++ "/manage_nodes") = true
            ∧ env.service_accepted (name ++ "/is_active") = true)) := by
  refine ⟨new_ok_iff env "" namespace_ w, ?_, fun name => new_ok_iff env name namespace_ w⟩
  intro s h
  have ha := new_addresses env "" namespace_ w s h
  exact ⟨ha.1, ha.2.1⟩

/-- C7 amended, at a concrete middleware that refuses the service name
`/is_active`: construction with the empty base name fails there. -/
theorem construction_fails_only_in_middleware_witness :
    ¬ ∃ s, LifecycleManagerClient.new
        { stubRemote 0 1 .SUCCESS true with
          service_accepted := fun service => decide (service = "/manage_nodes") }
        "" "" World.init = .ok s := by
  intro h
  have h2 := (construction_fails_only_in_middleware
    { stubRemote 0 1 .SUCCESS true with
      service_accepted := fun service => decide (service = "/manage_nodes") }
    "" World.init).1.mp h
  exact absurd h2.2.2 (by decide)

end nav2_lifecycle_manager
